import Mathlib

/-!
Shallow embedding of `khal/ui/editor.py` (event edit session of the khal
calendar TUI), together with theorems checking the natural-language
specification of that module.

Python `datetime.date` / `datetime.datetime` values are modelled by `Date`
(with the accessors the source uses: an ordinal for comparison, the day of
month, the weekday) and `DateTime` (a date, a minute-of-day, and an optional
timezone; `tz = none` models a naive datetime).  `strptime` under the
configured format strings is modelled by the graph of the parse function
(an association list in `Conf`): a text either parses to a value or raises
`ValueError`.
-/

namespace Khal

/-- Model of `datetime.date`: `ord` is the proleptic ordinal (used for
comparisons), `day` the day of month (`.day`), `weekday` the weekday
(`.weekday()`, Monday = 0). -/
structure Date where
  ord : Int
  day : Nat
  weekday : Fin 7
deriving DecidableEq, Repr

/-- Model of a time of day (`datetime.time`) at minute granularity. -/
structure Time where
  minutes : Nat
deriving DecidableEq, Repr

/-- Model of a `tzinfo` object, identified by its UTC offset in minutes. -/
structure Tz where
  offset : Int
deriving DecidableEq, Repr

/-- Model of `datetime.datetime`; `tz = none` is a naive datetime. -/
structure DateTime where
  date : Date
  time : Time
  tz : Option Tz
deriving DecidableEq, Repr

/-- Python comparison `a <= b` on datetimes: naive values compare by wall
clock (date, then time); aware values compare by UTC instant; comparing a
naive with an aware datetime raises `TypeError` in Python (modelled as
`false`; unreachable for the consistent states the editor builds). -/
def DateTime.pyLe (a b : DateTime) : Bool :=
  match a.tz, b.tz with
  | none, none =>
      decide (a.date.ord < b.date.ord) ||
      (decide (a.date.ord = b.date.ord) && decide (a.time.minutes ≤ b.time.minutes))
  | some za, some zb =>
      decide (a.date.ord * 1440 + (a.time.minutes : Int) - za.offset
              ≤ b.date.ord * 1440 + (b.time.minutes : Int) - zb.offset)
  | _, _ => false

/-- Python equality on datetimes: naive values compare by wall clock, aware
values by UTC instant, naive and aware are never equal. -/
def DateTime.pyEq (a b : DateTime) : Bool :=
  match a.tz, b.tz with
  | none, none =>
      decide (a.date.ord = b.date.ord) && decide (a.time.minutes = b.time.minutes)
  | some za, some zb =>
      decide (a.date.ord * 1440 + (a.time.minutes : Int) - za.offset
              = b.date.ord * 1440 + (b.time.minutes : Int) - zb.offset)
  | _, _ => false

/-- A value that is either a plain `date` or a `datetime` (the source keeps
start and end in either representation, switched by the all-day flag). -/
inductive EDT
  | d (date : Date)
  | dt (v : DateTime)
deriving DecidableEq, Repr

/-- The date component: `x.date()` for a datetime; a plain date is its own
date component (Python's `datetime.combine` accepts both). -/
def EDT.pydate : EDT → Date
  | .d x => x
  | .dt v => v.date

/-- Python `getattr(x, 'tzinfo', None)`: a plain date has no `tzinfo`. -/
def EDT.tzinfo : EDT → Option Tz
  | .d _ => none
  | .dt v => v.tz

/-- Python equality between the two representations: a date and a datetime
are never equal; two dates compare by ordinal; two datetimes by `pyEq`. -/
def EDT.pyEq : EDT → EDT → Bool
  | .d a, .d b => decide (a.ord = b.ord)
  | .dt a, .dt b => a.pyEq b
  | _, _ => false

/-- Python `a <= b` between the two representations; mixed date/datetime
comparison raises `TypeError` (modelled as `false`; unreachable for the
consistent states the editor builds). -/
def EDT.pyLe : EDT → EDT → Bool
  | .d a, .d b => decide (a.ord ≤ b.ord)
  | .dt a, .dt b => a.pyLe b
  | _, _ => false

/-- The configuration the editor reads: the default timezone and the two
`strptime` format strings, the latter modelled by their parse graphs
(text that parses maps to its value; any other text raises `ValueError`). -/
structure Conf where
  default_timezone : Tz
  timeformat : List (String × Time)
  longdateformat : List (String × Date)
deriving DecidableEq, Repr

/-- Model of `datetime.strptime(text, conf['locale']['timeformat'])`. -/
def Conf.strptime_time (c : Conf) (text : String) : Option Time :=
  (c.timeformat.find? (fun p => p.fst == text)).map Prod.snd

/-- Model of `datetime.strptime(text, conf['locale']['longdateformat'])`. -/
def Conf.strptime_date (c : Conf) (text : String) : Option Date :=
  (c.longdateformat.find? (fun p => p.fst == text)).map Prod.snd

/-- State of `StartEndEditor` (the widget fields are pure rendering and are
not state of the model; `_original_start` and `_original_end` are the
snapshots taken in `__init__`). -/
structure StartEndEditor where
  allday : Bool
  _startdt : EDT
  _enddt : EDT
  _original_start : EDT
  _original_end : EDT
  conf : Conf
deriving DecidableEq, Repr

/-- Property `startdt`: truncate to the date when the all-day flag is set
and the stored value is still a datetime. -/
def StartEndEditor.startdt (s : StartEndEditor) : EDT :=
  match s.allday, s._startdt with
  | true, .dt v => .d v.date
  | _, x => x

/-- Property `enddt`, symmetric to `startdt`. -/
def StartEndEditor.enddt (s : StartEndEditor) : EDT :=
  match s.allday, s._enddt with
  | true, .dt v => .d v.date
  | _, x => x

/-- Property `_start_time`: the stored start's time of day, `time(0)` when
the stored value is a plain date (`AttributeError` branch). -/
def StartEndEditor._start_time (s : StartEndEditor) : Time :=
  match s._startdt with
  | .dt v => v.time
  | .d _ => ⟨0⟩

/-- Property `_end_time`, symmetric to `_start_time`. -/
def StartEndEditor._end_time (s : StartEndEditor) : Time :=
  match s._enddt with
  | .dt v => v.time
  | .d _ => ⟨0⟩

/-- Property `localize_start`: localize a naive datetime into the timezone
of `startdt` when it has one, otherwise into the configured default. -/
def StartEndEditor.localize_start (s : StartEndEditor) (naive : DateTime) : DateTime :=
  match s.startdt.tzinfo with
  | none => { naive with tz := some s.conf.default_timezone }
  | some z => { naive with tz := some z }

/-- Property `localize_end`, symmetric to `localize_start`. -/
def StartEndEditor.localize_end (s : StartEndEditor) (naive : DateTime) : DateTime :=
  match s.enddt.tzinfo with
  | none => { naive with tz := some s.conf.default_timezone }
  | some z => { naive with tz := some z }

/-- Result of a `_validate_*` call: the value returned on success, `failed`
for the `return False` branch (strptime raised `ValueError`), `raised` when
an `AttributeError` escapes (calling `.date()` on a plain date; unreachable
because time fields only exist while the editor is in timed mode). -/
inductive VRes (α : Type)
  | ok (v : α)
  | failed
  | raised
deriving DecidableEq, Repr

/-- Method `_validate_start_time`: parse the text as a time; on success
combine the stored start's date with the parsed time, localize it, and
store it; on parse failure return `False` and leave the state unchanged. -/
def StartEndEditor._validate_start_time (s : StartEndEditor) (text : String) :
    VRes Time × StartEndEditor :=
  match s.conf.strptime_time text with
  | none => (.failed, s)
  | some t =>
    match s._startdt with
    | .d _ => (.raised, s)
    | .dt v => (.ok t, { s with _startdt := .dt (s.localize_start ⟨v.date, t, none⟩) })

/-- Method `_validate_start_date`: parse the text as a date; on success
combine the parsed date with `_start_time`, localize it, and store it; on
parse failure return `False` and leave the state unchanged. -/
def StartEndEditor._validate_start_date (s : StartEndEditor) (text : String) :
    VRes Date × StartEndEditor :=
  match s.conf.strptime_date text with
  | none => (.failed, s)
  | some d => (.ok d, { s with _startdt := .dt (s.localize_start ⟨d, s._start_time, none⟩) })

/-- Method `_validate_end_time`, symmetric to `_validate_start_time`. -/
def StartEndEditor._validate_end_time (s : StartEndEditor) (text : String) :
    VRes Time × StartEndEditor :=
  match s.conf.strptime_time text with
  | none => (.failed, s)
  | some t =>
    match s._enddt with
    | .d _ => (.raised, s)
    | .dt v => (.ok t, { s with _enddt := .dt (s.localize_end ⟨v.date, t, none⟩) })

/-- Method `_validate_end_date`, symmetric to `_validate_start_date`. -/
def StartEndEditor._validate_end_date (s : StartEndEditor) (text : String) :
    VRes Date × StartEndEditor :=
  match s.conf.strptime_date text with
  | none => (.failed, s)
  | some d => (.ok d, { s with _enddt := .dt (s.localize_end ⟨d, s._end_time, none⟩) })

/-- Method `toggle`: switching timed to all-day truncates both endpoints to
their dates; switching all-day to timed combines both dates with
`datetime.min.time()` (midnight, naive — the source does not localize
here); same-state toggles leave the stored values alone.  The widget
rebuilding that follows in the source is pure rendering. -/
def StartEndEditor.toggle (s : StartEndEditor) (state : Bool) : StartEndEditor :=
  let s1 :=
    if s.allday = true && state = false then
      { s with _startdt := .dt ⟨s._startdt.pydate, ⟨0⟩, none⟩,
               _enddt := .dt ⟨s._enddt.pydate, ⟨0⟩, none⟩ }
    else if s.allday = false && state = true then
      { s with _startdt := .d s._startdt.pydate, _enddt := .d s._enddt.pydate }
    else s
  { s1 with allday := state }

/-- Property `changed`: true when the projected start or end differs from
its original snapshot (Python `!=`). -/
def StartEndEditor.changed (s : StartEndEditor) : Bool :=
  !(s.startdt.pyEq s._original_start) || !(s.enddt.pyEq s._original_end)

/-- Method `validate`: `self.startdt <= self.enddt`. -/
def StartEndEditor.validate (s : StartEndEditor) : Bool :=
  s.startdt.pyLe s.enddt

/-- Constant `WEEKDAYS` from the source. -/
def WEEKDAYS : List String := ["MO", "TU", "WE", "TH", "FR", "SA", "SU"]

/-- Model of Python `str.lower()` (ASCII; rule names and frequency tokens
are ASCII). -/
def pyLower (s : String) : String := ⟨s.data.map Char.toLower⟩

/-- Model of Python `str.upper()` (ASCII). -/
def pyUpper (s : String) : String := ⟨s.data.map Char.toUpper⟩

/-- Model of Python `int(text)` on decimal digit strings (`None` models the
`ValueError` on anything else; the `PositiveIntEdit` widget only lets digit
strings through). -/
def pyInt (s : String) : Option Nat :=
  if s.data ≠ [] ∧ s.data.all Char.isDigit then
    some (s.data.foldl (fun n c => n * 10 + (c.toNat - 48)) 0)
  else none

/-- Model of the incoming recurrence object (`event.recurobject`, an
icalendar `vRecur`): a dictionary from property names to lists of value
tokens.  `vRecur` normalizes keys to upper case on insertion, so stored
keys are upper case; values are rendered as their string tokens. -/
structure Rrule where
  entries : List (String × List String)
deriving DecidableEq, Repr

/-- Python `rrule.keys()`. -/
def Rrule.keys (r : Rrule) : List String := r.entries.map Prod.fst

/-- Caseless lookup (`vRecur` is a `CaselessDict`): `rrule.get(k)` /
`rrule[k]` look the key up in upper case. -/
def Rrule.get (r : Rrule) (k : String) : Option (List String) :=
  (r.entries.find? (fun kv => kv.fst == pyUpper k)).map Prod.snd

/-- Python truthiness of the dictionary (`bool(rrule)`): nonempty. -/
def Rrule.truthy (r : Rrule) : Bool := !r.entries.isEmpty

/-- List of frequencies accepted by `check_understood_rrule`. -/
def supported_freqs : List String := ["DAILY", "WEEKLY", "MONTHLY", "YEARLY"]

/-- The set of rule parts the editor cannot reproduce (name kept with the
source's spelling). -/
def unsupporetd_rrule_parts : List String :=
  ["BYSECOND", "BYMINUTE", "BYHOUR", "BYMONTHDAY", "BYYEARDAY",
   "BYWEEKNO", "BYMONTH", "BYSETPOS", "WKST"]

/-- Static method `check_understood_rrule`: false when any key is one of
the unsupported parts, false when `rrule.get('FREQ', [None])[0]` is not one
of the four supported frequencies, true otherwise.  (An empty `FREQ` value
list would raise `IndexError` in Python; unreachable for parsed rules,
modelled as false.) -/
def check_understood_rrule (rrule : Rrule) : Bool :=
  if rrule.keys.any (fun k => unsupporetd_rrule_parts.contains k) then false
  else
    match ((rrule.get "FREQ").getD []).head? with
    | some f => supported_freqs.contains f
    | none => false

/-- State of `WeekDaySelector`: one checkbox per entry of `WEEKDAYS`, in
order. -/
structure WeekDaySelector where
  checks : List Bool
deriving DecidableEq, Repr

/-- Constructor of `WeekDaySelector`: all boxes unchecked except the one of
the start date's weekday. -/
def WeekDaySelector.init (weekday : Fin 7) : WeekDaySelector :=
  ⟨(List.range 7).map (fun i => decide (i = weekday.val))⟩

/-- Property `days`: the labels of the checked boxes, in `WEEKDAYS`
order. -/
def WeekDaySelector.days (w : WeekDaySelector) : List String :=
  ((WEEKDAYS.zip w.checks).filter (fun p => p.snd)).map Prod.fst

/-- State of `RecurrenceEditor`.  Widget texts that the logic reads back
are modelled by their parsed values: `interval_edit` holds the integer
value of the `PositiveIntEdit` text (that widget only accepts digit
strings), the `Choice` widgets hold their active option. -/
structure RecurrenceEditor where
  _rrule : Rrule
  «repeat» : Bool
  _allow_edit : Bool
  recurrence_choice : String
  interval_edit : Nat
  until_choice : String
  repetitions_edit : Nat
  weekday_checks : WeekDaySelector
  monthly_choice : String
  xth_weekday : Nat × String
deriving DecidableEq, Repr

/-- Constructor of `RecurrenceEditor` from the event's recurrence object
and the start value.  Mirrors `__init__`: `repeat = bool(rrule)`;
`_allow_edit = not repeat or check_understood_rrule(rrule)`; the frequency
choice starts at `rrule['freq'][0].lower()` when a rule is present, else
`"weekly"`; the interval edit starts at `rrule.get('INTERVAL', [1])[0]`;
the weekday selector starts at the start date's weekday; the monthly
"nth weekday" option is `"every {startdt.day // 7 + 1} {WEEKDAYS[startdt.weekday()]}"`,
modelled as the (ordinal, weekday-token) pair. -/
def RecurrenceEditor.init (rrule : Rrule) (startdt : Date) : RecurrenceEditor :=
  let rep := rrule.truthy
  { _rrule := rrule
    «repeat» := rep
    _allow_edit := !rep || check_understood_rrule rrule
    recurrence_choice :=
      if rep then pyLower (((rrule.get "freq").getD []).headD "") else "weekly"
    interval_edit := (pyInt (((rrule.get "INTERVAL").getD ["1"]).headD "1")).getD 0
    until_choice := "Forever"
    repetitions_edit := 1
    weekday_checks := WeekDaySelector.init startdt.weekday
    monthly_choice := "on the xth"
    xth_weekday := (startdt.day / 7 + 1, WEEKDAYS.getD startdt.weekday.val "") }

/-- The "Edit anyway" button handler of `_rebuild_no_edit`: the only way
`_allow_edit` ever becomes true for a loaded unsupported rule. -/
def RecurrenceEditor.allow_edit_override (e : RecurrenceEditor) : RecurrenceEditor :=
  { e with _allow_edit := true }

/-- Checkbox handler `check_repeat`. -/
def RecurrenceEditor.check_repeat (e : RecurrenceEditor) (state : Bool) : RecurrenceEditor :=
  { e with «repeat» := state }

/-- Which of the three sub-layouts `rebuild` selects. -/
inductive RecView
  | noEdit
  | editRepeat
  | editNoRepeat
deriving DecidableEq, Repr

/-- Method `rebuild`: the warning-only layout while `_allow_edit` is false,
the full editing layout while repeating, the lone repeat checkbox
otherwise. -/
def RecurrenceEditor.rebuild_view (e : RecurrenceEditor) : RecView :=
  if !e._allow_edit then .noEdit
  else if e.«repeat» then .editRepeat
  else .editNoRepeat

/-- The dictionary built by method `rrule()`: `freq` always, `interval`
only when the interval differs from 1, `byday` only when the frequency is
weekly and more than one weekday is selected. -/
structure OutRrule where
  freq : List String
  interval : Option (List Nat)
  byday : Option (List String)
deriving DecidableEq, Repr

/-- Method `rrule()` of `RecurrenceEditor`. -/
def RecurrenceEditor.rrule (e : RecurrenceEditor) : OutRrule :=
  let interval := e.interval_edit
  { freq := [e.recurrence_choice]
    interval := if interval ≠ 1 then some [interval] else none
    byday :=
      if [e.recurrence_choice] = ["weekly"] ∧ e.weekday_checks.days.length > 1
      then some e.weekday_checks.days else none }

/-- The plain `dict` literal that `rrule()` builds, for the comparison in
`changed`: lower-case keys in insertion order, values as string tokens. -/
def OutRrule.toDict (o : OutRrule) : Rrule :=
  ⟨[("freq", o.freq)]
    ++ (match o.interval with
        | some l => [("interval", l.map toString)]
        | none => [])
    ++ (match o.byday with
        | some l => [("byday", l)]
        | none => [])⟩

/-- Python dictionary equality (order-insensitive, keys unique): used for
`self._rrule != self.rrule()`.  Key case matters, so a stored upper-case
`vRecur` never equals the lower-case dictionary `rrule()` builds. -/
def rruleDictEq (a b : Rrule) : Bool :=
  decide (a.entries.length = b.entries.length) &&
  a.entries.all (fun kv => b.entries.contains kv)

/-- Property `changed` of `RecurrenceEditor`:
`self._rrule != self.rrule()` (the source marks this "TODO do this
properly"). -/
def RecurrenceEditor.changed (e : RecurrenceEditor) : Bool :=
  !(rruleDictEq e._rrule e.rrule.toDict)

/-- Property getter `active`: `None` when not repeating, otherwise the
encoded rule. -/
def RecurrenceEditor.active (e : RecurrenceEditor) : Option OutRrule :=
  if !e.«repeat» then none else some e.rrule

/-- The model's Python error values. -/
inductive PyErr
  | valueError
deriving DecidableEq, Repr

/-- Property setter `active`: `raise ValueError` unconditionally; the
assignment to `recurrence_choice.active` on the following source line is
unreachable, so no updated state is ever produced. -/
def RecurrenceEditor.set_active {α : Type} (_e : RecurrenceEditor) (_val : α) :
    Except PyErr RecurrenceEditor :=
  Except.error PyErr.valueError

/-- The external `Event` entity, with the fields and mutators the session
uses (`khal.event.Event` is a collaborator outside this module). -/
structure Event where
  summary : String
  description : String
  location : String
  categories : String
  etag : Option String
  calendar : String
  sequence : Nat
  start_local : EDT
  end_local : EDT
  rrule : Option OutRrule
  alarms : List String
  recurring : Bool
  allday : Bool
deriving DecidableEq, Repr

/-- Mutator `update_summary`. -/
def Event.update_summary (e : Event) (t : String) : Event := { e with summary := t }

/-- Mutator `update_description`. -/
def Event.update_description (e : Event) (t : String) : Event := { e with description := t }

/-- Mutator `update_location`. -/
def Event.update_location (e : Event) (t : String) : Event := { e with location := t }

/-- Mutator `update_categories`. -/
def Event.update_categories (e : Event) (t : String) : Event := { e with categories := t }

/-- Mutator `update_start_end`. -/
def Event.update_start_end (e : Event) (s en : EDT) : Event :=
  { e with start_local := s, end_local := en }

/-- Mutator `update_rrule`. -/
def Event.update_rrule (e : Event) (r : Option OutRrule) : Event := { e with rrule := r }

/-- Mutator `update_alarms`. -/
def Event.update_alarms (e : Event) (a : List String) : Event := { e with alarms := a }

/-- Mutator `increment_sequence`. -/
def Event.increment_sequence (e : Event) : Event := { e with sequence := e.sequence + 1 }

/-- Modelled from the spec: the `Choice` widget used as calendar chooser
lives in `khal/ui/widgets.py` (not part of this module); per the spec it
holds the active calendar name and reports `changed` when the selection
differs from the initial one. -/
structure CalChooser where
  active : String
  original : String
deriving DecidableEq, Repr

/-- Modelled from the spec: `Choice.changed`. -/
def CalChooser.changed (c : CalChooser) : Bool := decide (c.active ≠ c.original)

/-- Modelled from the spec: the `AlarmsEditor` widget (external); the
session only reads its `changed` predicate and `get_alarms()`. -/
structure AlarmsEd where
  changed : Bool
  alarms : List String
deriving DecidableEq, Repr

/-- State of `EventEditor`: the entity being edited, the current edit texts
of the four plain text fields, the two sub-models, the calendar chooser,
the alarms editor, and the two flags. -/
structure EventEditor where
  event : Event
  summary : String
  description : String
  location : String
  categories : String
  startendeditor : StartEndEditor
  recurrenceeditor : RecurrenceEditor
  calendar_chooser : CalChooser
  alarms : AlarmsEd
  _always_save : Bool
  _abort_confirmed : Bool
deriving DecidableEq, Repr

/-- Property `changed` of `EventEditor`: any text field differs from the
entity's value, or the range editor, the calendar chooser, the recurrence
editor, or the alarms editor reports a change. -/
def EventEditor.changed (ed : EventEditor) : Bool :=
  decide (ed.summary ≠ ed.event.summary) ||
  decide (ed.description ≠ ed.event.description) ||
  decide (ed.location ≠ ed.event.location) ||
  decide (ed.categories ≠ ed.event.categories) ||
  ed.startendeditor.changed ||
  ed.calendar_chooser.changed ||
  ed.recurrenceeditor.changed ||
  ed.alarms.changed

/-- The update methods `update_vevent` can invoke on the entity. -/
inductive UpdMethod
  | summary
  | description
  | location
  | categories
  | start_end
  | rrule
  | alarms
deriving DecidableEq, Repr

/-- Method `update_vevent`, state effect: the four text fields are written
unconditionally; the start/end range, the recurrence rule, and the alarms
are written only when the corresponding `changed` predicate holds. -/
def EventEditor.update_vevent (ed : EventEditor) : EventEditor :=
  let ev := ((((ed.event.update_summary ed.summary).update_description
      ed.description).update_location ed.location).update_categories ed.categories)
  let ev := if ed.startendeditor.changed
            then ev.update_start_end ed.startendeditor.startdt ed.startendeditor.enddt
            else ev
  let ev := if ed.recurrenceeditor.changed
            then ev.update_rrule ed.recurrenceeditor.active
            else ev
  let ev := if ed.alarms.changed then ev.update_alarms ed.alarms.alarms else ev
  { ed with event := ev }

/-- Method `update_vevent`, invocation trace: which entity update methods
run, with the same guards as the state effect. -/
def EventEditor.update_vevent_trace (ed : EventEditor) : List UpdMethod :=
  [UpdMethod.summary, UpdMethod.description, UpdMethod.location, UpdMethod.categories]
  ++ (if ed.startendeditor.changed then [UpdMethod.start_end] else [])
  ++ (if ed.recurrenceeditor.changed then [UpdMethod.rrule] else [])
  ++ (if ed.alarms.changed then [UpdMethod.alarms] else [])

/-- The persistence calls the session can make to the `Collection`
service. -/
inductive PersistCall
  | new (e : Event)
  | change_collection (e : Event) (cal : String)
  | update (e : Event)
deriving DecidableEq, Repr

/-- Outcome of a `save()` call: the editor state afterwards, the
persistence calls made (in order), whether the "end before start" alert was
shown, the save-callback invocation if any, and whether the view was closed
(`backtrack`). -/
structure SaveResult where
  editor : EventEditor
  persist : List PersistCall
  alert : Bool
  callback : Option (EDT × EDT × Bool)
  closed : Bool
deriving DecidableEq, Repr

/-- Method `save`: refuse with an alert when the range does not validate;
when `_always_save` or `changed` holds, apply the edits to the entity, set
its all-day flag, increment its sequence, dispatch exactly one persistence
call (`new` for an entity without etag, after assigning the chosen
calendar; `change_collection` when the calendar selection changed;
`update` otherwise) and invoke the save callback; in all non-refused cases
clear `_abort_confirmed` and close the view. -/
def EventEditor.save (ed : EventEditor) : SaveResult :=
  if !ed.startendeditor.validate then
    { editor := ed, persist := [], alert := true, callback := none, closed := false }
  else if ed._always_save || ed.changed then
    let ed1 := ed.update_vevent
    let ev := { ed1.event with allday := ed1.startendeditor.allday }
    let ev := ev.increment_sequence
    let evcall :=
      match ev.etag with
      | none =>
        let ev2 := { ev with calendar := ed1.calendar_chooser.active }
        (ev2, PersistCall.new ev2)
      | some _ =>
        if ed1.calendar_chooser.changed
        then (ev, PersistCall.change_collection ev ed1.calendar_chooser.active)
        else (ev, PersistCall.update ev)
    let ev2 := evcall.fst
    { editor := { ed1 with event := ev2, _abort_confirmed := false }
      persist := [evcall.snd]
      alert := false
      callback := some (ev2.start_local, ev2.end_local,
                        ev2.recurring || ed1.recurrenceeditor.changed)
      closed := true }
  else
    { editor := { ed with _abort_confirmed := false }, persist := [], alert := false,
      callback := none, closed := true }

/-- What a `keypress` call does besides updating the state: show the
unsaved-changes warning (and stay open), run `save`, or pass the key to the
container (`super().keypress`; for `'esc'` the surrounding window closes
the editor). -/
inductive KeyResult
  | warn
  | saved (r : SaveResult)
  | pass (key : String)
deriving DecidableEq, Repr

/-- Method `keypress` on a key: the first `'esc'` on a changed session with
no pending confirmation warns and sets `_abort_confirmed`; every other key
first clears `_abort_confirmed`, then a configured save key runs `save`,
and any remaining key is passed to the container. -/
def EventEditor.keypress (ed : EventEditor) (save_keys : List String) (key : String) :
    EventEditor × KeyResult :=
  if key == "esc" && ed.changed && !ed._abort_confirmed then
    ({ ed with _abort_confirmed := true }, .warn)
  else
    let ed1 := { ed with _abort_confirmed := false }
    if save_keys.contains key then
      let r := ed1.save
      (r.editor, .saved r)
    else
      (ed1, .pass key)

/-- The ordinal of the monthly "nth weekday" label as the spec states it:
`floor((day_of_month - 1) / 7) + 1`.  Stated from the spec's words, to be
compared with the ordinal the source computes in
`RecurrenceEditor.__init__`. -/
def spec_nth_weekday_ordinal (day : Nat) : Nat := (day - 1) / 7 + 1

/-- Sample date 2024-06-01 (a Saturday, ordinal 739038). -/
def dJun1 : Date := ⟨739038, 1, 5⟩

/-- Sample date 2024-06-02 (a Sunday). -/
def dJun2 : Date := ⟨739039, 2, 6⟩

/-- Sample date 2024-06-07: a Friday whose day of month is 7, the smallest
day on which the source's "nth weekday" ordinal diverges from the spec's
formula. -/
def dJun7 : Date := ⟨739044, 7, 4⟩

/-- Sample configuration: default timezone UTC, and parse graphs holding a
few well-formed texts. -/
def sampleConf : Conf :=
  { default_timezone := ⟨0⟩
    timeformat := [("09:00", ⟨540⟩), ("10:00", ⟨600⟩)]
    longdateformat := [("2024-06-01", dJun1), ("2024-06-02", dJun2)] }

/-- Sample timed (non-all-day) range editor: 2024-06-01 09:00 to 10:00 in a
UTC+60min zone, unedited. -/
def sedTimed : StartEndEditor :=
  { allday := false
    _startdt := .dt ⟨dJun1, ⟨540⟩, some ⟨60⟩⟩
    _enddt := .dt ⟨dJun1, ⟨600⟩, some ⟨60⟩⟩
    _original_start := .dt ⟨dJun1, ⟨540⟩, some ⟨60⟩⟩
    _original_end := .dt ⟨dJun1, ⟨600⟩, some ⟨60⟩⟩
    conf := sampleConf }

/-- Sample all-day range editor: 2024-06-01 to 2024-06-02, unedited. -/
def sedAllday : StartEndEditor :=
  { allday := true
    _startdt := .d dJun1
    _enddt := .d dJun2
    _original_start := .d dJun1
    _original_end := .d dJun2
    conf := sampleConf }

/-- Sample recurrence editor whose stored rule equals its own encoding, so
that `changed` is false: weekly, interval 1, a single selected weekday. -/
def recNoChange : RecurrenceEditor :=
  { _rrule := ⟨[("freq", ["weekly"])]⟩
    «repeat» := true
    _allow_edit := true
    recurrence_choice := "weekly"
    interval_edit := 1
    until_choice := "Forever"
    repetitions_edit := 1
    weekday_checks := ⟨[true, false, false, false, false, false, false]⟩
    monthly_choice := "on the xth"
    xth_weekday := (1, "SA") }

/-- Sample loaded rule the editor cannot reproduce: monthly with a
`BYMONTHDAY` restriction. -/
def rUnsup : Rrule := ⟨[("FREQ", ["MONTHLY"]), ("BYMONTHDAY", ["15"])]⟩

/-- Sample event already persisted (etag present) in calendar "home". -/
def evHome : Event :=
  { summary := "meeting"
    description := ""
    location := ""
    categories := ""
    etag := some "etag1"
    calendar := "home"
    sequence := 3
    start_local := .dt ⟨dJun1, ⟨540⟩, some ⟨60⟩⟩
    end_local := .dt ⟨dJun1, ⟨600⟩, some ⟨60⟩⟩
    rrule := none
    alarms := []
    recurring := false
    allday := false }

/-- Sample edit session with no edits at all: every `changed` predicate is
false. -/
def edClean : EventEditor :=
  { event := evHome
    summary := "meeting"
    description := ""
    location := ""
    categories := ""
    startendeditor := sedTimed
    recurrenceeditor := recNoChange
    calendar_chooser := ⟨"home", "home"⟩
    alarms := ⟨false, []⟩
    _always_save := false
    _abort_confirmed := false }

/-- Sample session with only the summary text edited. -/
def edChangedUpd : EventEditor := { edClean with summary := "meeting2" }

/-- Sample session for a never-persisted event (etag absent) with an edit,
calendar chooser on "work". -/
def edNew : EventEditor :=
  { edClean with
      event := { evHome with etag := none }
      summary := "meeting2"
      calendar_chooser := ⟨"work", "work"⟩ }

/-- Sample session whose only edit is moving the event to calendar
"work". -/
def edMove : EventEditor := { edClean with calendar_chooser := ⟨"work", "home"⟩ }

/-- Sample session with no user edit but `always_save` set: the save
proceeds past the change check with every field's change flag false. -/
def edAlways : EventEditor := { edClean with _always_save := true }

/-- Sample session that just loaded the unreproducible rule `rUnsup`: the
recurrence editor is exactly `RecurrenceEditor.init rUnsup dJun1` (so the
edit-anyway override has not been pressed). -/
def edUnsup : EventEditor :=
  { edClean with recurrenceeditor := RecurrenceEditor.init rUnsup dJun1 }

/-- Helper: `update_vevent` never touches the entity's etag. -/
lemma update_vevent_event_etag (ed : EventEditor) :
    (ed.update_vevent).event.etag = ed.event.etag := by
  unfold EventEditor.update_vevent
  cases hsc : ed.startendeditor.changed <;>
    cases hrc : ed.recurrenceeditor.changed <;>
      cases hac : ed.alarms.changed <;>
        simp [hsc, hrc, hac, Event.update_summary, Event.update_description,
          Event.update_location, Event.update_categories, Event.update_start_end,
          Event.update_rrule, Event.update_alarms]

/-- Helper: `update_vevent` never touches the calendar chooser. -/
lemma update_vevent_calendar_chooser (ed : EventEditor) :
    (ed.update_vevent).calendar_chooser = ed.calendar_chooser := rfl

/-- C3 counterexample: on the unedited timed editor `sedTimed` whose start
time of day is 09:00 (540 minutes), toggling all-day on and then off with
no edits in between yields midnight, not the original time of day. -/
theorem toggle_roundtrip_cex :
    sedTimed.allday = false ∧
    sedTimed._startdt = EDT.dt ⟨dJun1, ⟨540⟩, some ⟨60⟩⟩ ∧
    ((sedTimed.toggle true).toggle false)._startdt = EDT.dt ⟨dJun1, ⟨0⟩, none⟩ ∧
    ((sedTimed.toggle true).toggle false)._enddt = EDT.dt ⟨dJun1, ⟨0⟩, none⟩ := by
  decide

/-- C3 (corrected): for every timed start/end pair, `toggle(true)` then
`toggle(false)` stores midnight (naive) for both endpoints — the original
time of day is never restored, with or without edits in between. -/
theorem toggle_roundtrip_midnight (s : StartEndEditor) (h : s.allday = false) :
    ((s.toggle true).toggle false)._startdt = EDT.dt ⟨s._startdt.pydate, ⟨0⟩, none⟩ ∧
    ((s.toggle true).toggle false)._enddt = EDT.dt ⟨s._enddt.pydate, ⟨0⟩, none⟩ ∧
    ((s.toggle true).toggle false).allday = false := by
  simp [StartEndEditor.toggle, h, EDT.pydate]

/-- C3 witness: the corrected statement evaluated on `sedTimed`. -/
theorem toggle_roundtrip_midnight_witness :
    ((sedTimed.toggle true).toggle false)._startdt
      = EDT.dt ⟨sedTimed._startdt.pydate, ⟨0⟩, none⟩ ∧
    ((sedTimed.toggle true).toggle false)._enddt
      = EDT.dt ⟨sedTimed._enddt.pydate, ⟨0⟩, none⟩ ∧
    ((sedTimed.toggle true).toggle false).allday = false :=
  toggle_roundtrip_midnight sedTimed rfl

/-- C2 counterexample: in the session `edAlways` the save proceeds past the
change check (`always_save` is set) while the summary's change predicate is
false, yet `update_summary` is invoked. -/
theorem update_vevent_summary_cex :
    edAlways.summary = edAlways.event.summary ∧
    (edAlways._always_save || edAlways.changed) = true ∧
    UpdMethod.summary ∈ edAlways.update_vevent_trace ∧
    edAlways.save.persist.length = 1 := by
  decide

/-- C2 (corrected): during a save that proceeds past the change check, only
the start/end range, the recurrence rule, and the alarms are guarded by
their change flags (when such a flag is false the corresponding update
method is not invoked and the entity field is untouched); the summary,
description, location, and categories update methods are invoked
unconditionally. -/
theorem update_vevent_field_guards (ed : EventEditor) :
    (ed.startendeditor.changed = false →
      UpdMethod.start_end ∉ ed.update_vevent_trace ∧
      (ed.update_vevent).event.start_local = ed.event.start_local ∧
      (ed.update_vevent).event.end_local = ed.event.end_local) ∧
    (ed.recurrenceeditor.changed = false →
      UpdMethod.rrule ∉ ed.update_vevent_trace ∧
      (ed.update_vevent).event.rrule = ed.event.rrule) ∧
    (ed.alarms.changed = false →
      UpdMethod.alarms ∉ ed.update_vevent_trace ∧
      (ed.update_vevent).event.alarms = ed.event.alarms) ∧
    UpdMethod.summary ∈ ed.update_vevent_trace ∧
    UpdMethod.description ∈ ed.update_vevent_trace ∧
    UpdMethod.location ∈ ed.update_vevent_trace ∧
    UpdMethod.categories ∈ ed.update_vevent_trace := by
  cases hsc : ed.startendeditor.changed <;>
    cases hrc : ed.recurrenceeditor.changed <;>
      cases hac : ed.alarms.changed <;>
        simp [EventEditor.update_vevent, EventEditor.update_vevent_trace, hsc, hrc, hac,
          Event.update_summary, Event.update_description, Event.update_location,
          Event.update_categories, Event.update_start_end, Event.update_rrule,
          Event.update_alarms]

/-- C2 witness: the corrected statement evaluated on the unedited session
`edClean`, whose three guarded flags are all false. -/
theorem update_vevent_field_guards_witness :
    UpdMethod.start_end ∉ edClean.update_vevent_trace ∧
    UpdMethod.rrule ∉ edClean.update_vevent_trace ∧
    UpdMethod.alarms ∉ edClean.update_vevent_trace ∧
    (edClean.update_vevent).event.start_local = edClean.event.start_local ∧
    UpdMethod.summary ∈ edClean.update_vevent_trace := by
  have h := update_vevent_field_guards edClean
  exact ⟨(h.1 (by decide)).1, (h.2.1 (by decide)).1, (h.2.2.1 (by decide)).1,
    (h.1 (by decide)).2.1, h.2.2.2.1⟩

/-- C6: the `active` getter is `None` exactly while not repeating;
otherwise it encodes the chosen frequency, an `interval` entry only when
the interval differs from 1, and a `byday` entry only when the frequency is
weekly and more than one weekday is selected (weekly with a single selected
weekday yields a rule without `byday`). -/
theorem recurrence_active_encoding (e : RecurrenceEditor) :
    (e.«repeat» = false → e.active = none) ∧
    (e.«repeat» = true →
      e.active = some e.rrule ∧
      e.rrule.freq = [e.recurrence_choice] ∧
      (e.interval_edit = 1 → e.rrule.interval = none) ∧
      (e.interval_edit ≠ 1 → e.rrule.interval = some [e.interval_edit]) ∧
      (e.rrule.byday.isSome = true ↔
        (e.recurrence_choice = "weekly" ∧ 1 < e.weekday_checks.days.length)) ∧
      (e.recurrence_choice = "weekly" → e.weekday_checks.days.length = 1 →
        e.rrule.byday = none)) := by
  constructor
  · intro h
    simp [RecurrenceEditor.active, h]
  · intro h
    refine ⟨by simp [RecurrenceEditor.active, h], rfl, ?_, ?_, ?_, ?_⟩
    · intro hi; simp [RecurrenceEditor.rrule, hi]
    · intro hi; simp [RecurrenceEditor.rrule, hi]
    · unfold RecurrenceEditor.rrule
      split <;> rename_i hcond <;> simp at hcond ⊢
      · exact ⟨hcond.1, hcond.2⟩
      · intro hw; have := hcond hw; omega
    · intro hw hlen
      unfold RecurrenceEditor.rrule
      split <;> rename_i hcond
      · exfalso; simp [hw, hlen] at hcond
      · rfl

/-- C6 witness: a repeating weekly editor with a single selected weekday
encodes with no `byday` entry, and the same editor with repeat off encodes
to `None`. -/
theorem recurrence_active_encoding_witness :
    recNoChange.active = some ⟨["weekly"], none, none⟩ ∧
    ({ recNoChange with «repeat» := false } : RecurrenceEditor).active = none := by
  have h1 := (recurrence_active_encoding recNoChange).2 rfl
  have h2 := (recurrence_active_encoding
    ({ recNoChange with «repeat» := false } : RecurrenceEditor)).1 rfl
  refine ⟨?_, h2⟩
  rw [h1.1]
  decide

/-- C9: evaluated at a start date whose day of month is 7 (2024-06-07, a
Friday), the source's monthly "nth weekday" label reads "every 2 FR" while
the claimed formula floor((7-1)/7)+1 gives 1 (the 7th is the first Friday
of its month): the code's `day // 7 + 1` is off by one on days 7, 14, 21
and 28. -/
theorem xth_weekday_ordinal_mismatch :
    (RecurrenceEditor.init ⟨[]⟩ dJun7).xth_weekday = (2, "FR") ∧
    spec_nth_weekday_ordinal dJun7.day = 1 ∧
    (RecurrenceEditor.init ⟨[]⟩ dJun7).xth_weekday.fst
      ≠ spec_nth_weekday_ordinal dJun7.day := by
  decide

/-- C10: assigning any value to the `active` property always raises
`ValueError`; no updated model state is ever produced (the assignment after
the raise is unreachable), so the recurrence state can never be set through
this setter. -/
theorem set_active_always_raises {α : Type} (e : RecurrenceEditor) (v : α) :
    e.set_active v = Except.error PyErr.valueError := rfl

/-- Helper: in the dispatch branch with no etag, `save` makes exactly the
`new` call, on an event carrying the chosen calendar. -/
lemma save_new_branch (ed : EventEditor) (hv : ed.startendeditor.validate = true)
    (h2 : (ed._always_save || ed.changed) = true) (hc : ed.event.etag = none) :
    ed.save.persist = [PersistCall.new ed.save.editor.event] ∧
    ed.save.editor.event.calendar = ed.calendar_chooser.active := by
  have het : (ed.update_vevent).event.etag = none := (update_vevent_event_etag ed).trans hc
  simp only [EventEditor.save, hv, h2, Bool.not_true, Bool.false_eq_true, if_false, if_true,
    Event.increment_sequence, het]
  exact ⟨by trivial, by trivial⟩

/-- Helper: in the dispatch branch with an etag and a changed calendar
selection, `save` makes exactly the `change_collection` call towards the
chosen calendar. -/
lemma save_change_branch (ed : EventEditor) (hv : ed.startendeditor.validate = true)
    (h2 : (ed._always_save || ed.changed) = true) (tg : String)
    (hc : ed.event.etag = some tg) (hch : ed.calendar_chooser.changed = true) :
    ed.save.persist =
      [PersistCall.change_collection ed.save.editor.event ed.calendar_chooser.active] := by
  have het : (ed.update_vevent).event.etag = some tg := (update_vevent_event_etag ed).trans hc
  simp only [EventEditor.save, hv, h2, Bool.not_true, Bool.false_eq_true, if_false, if_true,
    Event.increment_sequence, het, update_vevent_calendar_chooser, hch]

/-- Helper: in the dispatch branch with an etag and an unchanged calendar
selection, `save` makes exactly the `update` call. -/
lemma save_update_branch (ed : EventEditor) (hv : ed.startendeditor.validate = true)
    (h2 : (ed._always_save || ed.changed) = true) (tg : String)
    (hc : ed.event.etag = some tg) (hch : ed.calendar_chooser.changed = false) :
    ed.save.persist = [PersistCall.update ed.save.editor.event] := by
  have het : (ed.update_vevent).event.etag = some tg := (update_vevent_event_etag ed).trans hc
  simp only [EventEditor.save, hv, h2, Bool.not_true, Bool.false_eq_true, if_false, if_true,
    Event.increment_sequence, het, update_vevent_calendar_chooser, hch]

/-- C1: `save` makes no persistence call when the range fails `validate`,
or when neither `always_save` nor `changed` holds; otherwise it makes
exactly one, chosen by precedence — `new` (on an event assigned the chosen
calendar) when the etag is absent, else `change_collection` towards the
chosen calendar when the calendar selection changed, else `update`. -/
theorem save_dispatch (ed : EventEditor) :
    (ed.startendeditor.validate = false → ed.save.persist = []) ∧
    (ed._always_save = false → ed.changed = false → ed.save.persist = []) ∧
    (ed.startendeditor.validate = true → (ed._always_save = true ∨ ed.changed = true) →
      (∃ call, ed.save.persist = [call]) ∧
      (ed.event.etag = none →
        ∃ ev, ed.save.persist = [PersistCall.new ev] ∧
          ev.calendar = ed.calendar_chooser.active) ∧
      (ed.event.etag ≠ none → ed.calendar_chooser.changed = true →
        ∃ ev, ed.save.persist
          = [PersistCall.change_collection ev ed.calendar_chooser.active]) ∧
      (ed.event.etag ≠ none → ed.calendar_chooser.changed = false →
        ∃ ev, ed.save.persist = [PersistCall.update ev])) := by
  refine ⟨?_, ?_, ?_⟩
  · intro hv
    simp [EventEditor.save, hv]
  · intro ha hc
    cases hv : ed.startendeditor.validate <;> simp [EventEditor.save, hv, ha, hc]
  · intro hv hfl
    have h2 : (ed._always_save || ed.changed) = true := by
      rcases hfl with h | h <;> simp [h]
    refine ⟨?_, ?_, ?_, ?_⟩
    · cases hc : ed.event.etag with
      | none => exact ⟨_, (save_new_branch ed hv h2 hc).1⟩
      | some tg =>
        cases hch : ed.calendar_chooser.changed with
        | true => exact ⟨_, save_change_branch ed hv h2 tg hc hch⟩
        | false => exact ⟨_, save_update_branch ed hv h2 tg hc hch⟩
    · intro hc
      exact ⟨_, (save_new_branch ed hv h2 hc).1, (save_new_branch ed hv h2 hc).2⟩
    · intro hne hch
      cases hc : ed.event.etag with
      | none => exact absurd hc hne
      | some tg => exact ⟨_, save_change_branch ed hv h2 tg hc hch⟩
    · intro hne hch
      cases hc : ed.event.etag with
      | none => exact absurd hc hne
      | some tg => exact ⟨_, save_update_branch ed hv h2 tg hc hch⟩

/-- C1 witness: the four outcomes evaluated on the sample sessions — no
call for the unedited session, `new` for the never-persisted one,
`change_collection` for the calendar move, `update` for the plain edit. -/
theorem save_dispatch_witness :
    edClean.save.persist = [] ∧
    (∃ ev, edNew.save.persist = [PersistCall.new ev] ∧
      ev.calendar = edNew.calendar_chooser.active) ∧
    (∃ ev, edMove.save.persist
      = [PersistCall.change_collection ev edMove.calendar_chooser.active]) ∧
    (∃ ev, edChangedUpd.save.persist = [PersistCall.update ev]) := by
  refine ⟨(save_dispatch edClean).2.1 rfl (by decide), ?_, ?_, ?_⟩
  · exact ((save_dispatch edNew).2.2 (by decide) (Or.inr (by decide))).2.1 rfl
  · exact ((save_dispatch edMove).2.2 (by decide) (Or.inr (by decide))).2.2.1
      (by decide) (by decide)
  · exact ((save_dispatch edChangedUpd).2.2 (by decide) (Or.inr (by decide))).2.2.2
      (by decide) (by decide)

/-- Helper: `save` leaves `_abort_confirmed` false when it was already
false on entry. -/
lemma save_editor_abort_confirmed (ed : EventEditor) (h : ed._abort_confirmed = false) :
    ed.save.editor._abort_confirmed = false := by
  unfold EventEditor.save
  split
  · exact h
  · split
    · rfl
    · rfl

/-- C4: the abort protocol (with `'esc'` not bound as a save key): a first
`'esc'` on a changed session with no pending confirmation warns, sets the
pending-abort flag and does not close; an `'esc'` while the flag is set is
passed to the container (which closes the editor) with no save run and the
flag reset; any other key resets the flag; and `'esc'` on an unchanged
session is passed straight to the container. -/
theorem keypress_abort_protocol (ed : EventEditor) (save_keys : List String) (key : String)
    (hesc : save_keys.contains "esc" = false) :
    (ed.changed = true → ed._abort_confirmed = false →
      ed.keypress save_keys "esc"
        = ({ ed with _abort_confirmed := true }, KeyResult.warn)) ∧
    (ed._abort_confirmed = true →
      ed.keypress save_keys "esc"
        = ({ ed with _abort_confirmed := false }, KeyResult.pass "esc")) ∧
    (key ≠ "esc" → (ed.keypress save_keys key).fst._abort_confirmed = false) ∧
    (ed.changed = false →
      ed.keypress save_keys "esc"
        = ({ ed with _abort_confirmed := false }, KeyResult.pass "esc")) := by
  have hesc' : "esc" ∉ save_keys := by simpa using hesc
  refine ⟨?_, ?_, ?_, ?_⟩
  · intro hchg hconf
    simp [EventEditor.keypress, hchg, hconf]
  · intro hconf
    simp [EventEditor.keypress, hconf, hesc']
  · intro hk
    have hkey : (key == "esc") = false := by
      simp [hk]
    simp only [EventEditor.keypress, hkey, Bool.false_and, Bool.false_eq_true, if_false]
    split
    · exact save_editor_abort_confirmed _ rfl
    · rfl
  · intro hchg
    simp [EventEditor.keypress, hchg, hesc']

/-- C4 witness: the spec scenario on the edited sample session — the first
`'esc'` warns and keeps the session open in the pending state, the second
`'esc'` is passed to the container with no save run, and a plain key resets
the pending state. -/
theorem keypress_abort_protocol_witness :
    edChangedUpd.keypress ["meta enter"] "esc"
      = ({ edChangedUpd with _abort_confirmed := true }, KeyResult.warn) ∧
    ({ edChangedUpd with _abort_confirmed := true } : EventEditor).keypress
        ["meta enter"] "esc"
      = ({ edChangedUpd with _abort_confirmed := false }, KeyResult.pass "esc") ∧
    (({ edChangedUpd with _abort_confirmed := true } : EventEditor).keypress
        ["meta enter"] "x").fst._abort_confirmed = false ∧
    edClean.keypress ["meta enter"] "esc"
      = ({ edClean with _abort_confirmed := false }, KeyResult.pass "esc") := by
  refine ⟨?_, ?_, ?_, ?_⟩
  · exact (keypress_abort_protocol edChangedUpd ["meta enter"] "x" (by decide)).1
      (by decide) rfl
  · exact (keypress_abort_protocol { edChangedUpd with _abort_confirmed := true }
      ["meta enter"] "x" (by decide)).2.1 rfl
  · exact (keypress_abort_protocol { edChangedUpd with _abort_confirmed := true }
      ["meta enter"] "x" (by decide)).2.2.1 (by decide)
  · exact (keypress_abort_protocol edClean ["meta enter"] "x" (by decide)).2.2.2
      (by decide)

/-- C5 counterexample: `edUnsup` just loaded the unreproducible rule
`rUnsup` (monthly with `BYMONTHDAY`); its recurrence model is in the
blocked state and the edit-anyway override has not been applied — yet a
single `save` makes a persistence call and writes the lossy re-encoding
(the `BYMONTHDAY` restriction is gone) onto the entity: the rule is not
protected from encoding until the override. -/
theorem unsupported_rule_encoded_cex :
    (RecurrenceEditor.init rUnsup dJun1)._allow_edit = false ∧
    edUnsup.recurrenceeditor = RecurrenceEditor.init rUnsup dJun1 ∧
    edUnsup.save.persist.length = 1 ∧
    edUnsup.save.editor.event.rrule = some ⟨["monthly"], none, none⟩ := by
  decide

/-- C5 (corrected): a rule is understood iff it has none of the nine
advanced parts and a supported frequency; every loaded rule failing the
check puts the model in the blocked (`RepeatUnsupported`) state, whose view
replaces the editing widgets; however the encoding is not gated by that
state — whenever the recurrence model reports `changed`, a save that
proceeds invokes `update_rrule` even without the edit-anyway override. -/
theorem check_understood_rrule_spec (r : Rrule) (startdt : Date) :
    (check_understood_rrule r = true ↔
      ((∀ k ∈ r.keys, k ∉ unsupporetd_rrule_parts) ∧
       ∃ f, ((r.get "FREQ").getD []).head? = some f ∧ f ∈ supported_freqs)) ∧
    (r.truthy = true → check_understood_rrule r = false →
      (RecurrenceEditor.init r startdt)._allow_edit = false ∧
      (RecurrenceEditor.init r startdt).rebuild_view = RecView.noEdit) ∧
    (∀ ed : EventEditor, ed.recurrenceeditor._allow_edit = false →
      ed.recurrenceeditor.changed = true →
      UpdMethod.rrule ∈ ed.update_vevent_trace) := by
  refine ⟨?_, ?_, ?_⟩
  · unfold check_understood_rrule
    constructor
    · intro h
      by_cases hA : r.keys.any (fun k => unsupporetd_rrule_parts.contains k) = true
      · rw [if_pos hA] at h
        exact absurd h (by simp)
      · rw [if_neg hA] at h
        have hA2 : ∀ k ∈ r.keys, k ∉ unsupporetd_rrule_parts := by
          intro k hk hmem
          exact hA (List.any_eq_true.mpr ⟨k, hk, by simpa using hmem⟩)
        refine ⟨hA2, ?_⟩
        cases hh : ((r.get "FREQ").getD []).head? with
        | none => rw [hh] at h; exact absurd h (by simp)
        | some f =>
          rw [hh] at h
          exact ⟨f, rfl, by simpa using h⟩
    · rintro ⟨hall, f, hf, hmem⟩
      have hA : ¬ (r.keys.any (fun k => unsupporetd_rrule_parts.contains k) = true) := by
        intro hA
        obtain ⟨k, hk, hmem2⟩ := List.any_eq_true.mp hA
        exact hall k hk (by simpa using hmem2)
      rw [if_neg hA, hf]
      simpa using hmem
  · intro ht hc
    constructor
    · simp [RecurrenceEditor.init, ht, hc]
    · simp [RecurrenceEditor.rebuild_view, RecurrenceEditor.init, ht, hc]
  · intro ed _ h2
    simp [EventEditor.update_vevent_trace, h2]

/-- C5 witness: the corrected statement evaluated on `rUnsup` — the check
rejects it, the freshly loaded editor is blocked, and the sample session
`edUnsup` (blocked, override never pressed) still reaches `update_rrule`
on save. -/
theorem check_understood_rrule_spec_witness :
    check_understood_rrule rUnsup = false ∧
    (RecurrenceEditor.init rUnsup dJun1)._allow_edit = false ∧
    (RecurrenceEditor.init rUnsup dJun1).rebuild_view = RecView.noEdit ∧
    UpdMethod.rrule ∈ edUnsup.update_vevent_trace := by
  have h := check_understood_rrule_spec rUnsup dJun1
  have hc : check_understood_rrule rUnsup = false := by decide
  have h2 := h.2.1 (by decide) hc
  exact ⟨hc, h2.1, h2.2, h.2.2 edUnsup (by decide) (by decide)⟩

/-- C8 counterexample: the all-day editor `sedAllday` toggled to timed
holds naive midnight datetimes; a successful start-time edit there does not
keep the existing timezone component — it attaches the configured default
timezone (absent before, `some ⟨0⟩` after).  Likewise a successful
start-date edit on the all-day editor itself does not replace only the date
component: the stored plain date becomes a timezone-aware midnight
datetime. -/
theorem setter_default_tz_cex :
    (sedAllday.toggle false).allday = false ∧
    (sedAllday.toggle false)._startdt = EDT.dt ⟨dJun1, ⟨0⟩, none⟩ ∧
    ((sedAllday.toggle false)._validate_start_time "09:00").1 = VRes.ok ⟨540⟩ ∧
    ((sedAllday.toggle false)._validate_start_time "09:00").2._startdt
      = EDT.dt ⟨dJun1, ⟨540⟩, some ⟨0⟩⟩ ∧
    EDT.tzinfo (((sedAllday.toggle false)._validate_start_time "09:00").2._startdt)
      ≠ EDT.tzinfo ((sedAllday.toggle false)._startdt) ∧
    sedAllday._startdt = EDT.d dJun1 ∧
    (sedAllday._validate_start_date "2024-06-02").1 = VRes.ok dJun2 ∧
    (sedAllday._validate_start_date "2024-06-02").2._startdt
      = EDT.dt ⟨dJun2, ⟨0⟩, some ⟨0⟩⟩ := by
  decide

/-- C8 (corrected): each of the four field setters returns the failure
sentinel and leaves the whole editor state unchanged when the text does not
parse under the configured format.  On success it returns the parsed value
and writes only the corresponding endpoint, combining the parsed component
with the other stored component (a parsed time keeps the stored date; a
parsed date keeps the stored time of day, midnight when the endpoint was a
plain date) — but the timezone is not simply kept: the new value is
localized to the visible timezone of the endpoint when it has one (timed
mode, aware stored value), and otherwise the configured default timezone is
attached — to naive stored values (as left by the all-day-to-timed toggle),
to datetime endpoints while the all-day flag hides their timezone, and to
plain-date endpoints (all-day date edits), which additionally become aware
midnight datetimes.  A time setter applied to a plain-date endpoint raises
`AttributeError` (unreachable: time fields exist only in timed mode). -/
theorem field_setter_contract (s : StartEndEditor) (text : String) :
    (s.conf.strptime_time text = none →
      s._validate_start_time text = (VRes.failed, s) ∧
      s._validate_end_time text = (VRes.failed, s)) ∧
    (s.conf.strptime_date text = none →
      s._validate_start_date text = (VRes.failed, s) ∧
      s._validate_end_date text = (VRes.failed, s)) ∧
    (∀ t, s.conf.strptime_time text = some t →
      (∀ x, s._startdt = EDT.d x → s._validate_start_time text = (VRes.raised, s)) ∧
      (∀ x, s._enddt = EDT.d x → s._validate_end_time text = (VRes.raised, s))) ∧
    (∀ t, s.conf.strptime_time text = some t →
      (∀ v, s._startdt = EDT.dt v →
        (s.allday = false → ∀ z, v.tz = some z →
          s._validate_start_time text
            = (VRes.ok t, { s with _startdt := EDT.dt ⟨v.date, t, some z⟩ })) ∧
        (s.allday = false → v.tz = none →
          s._validate_start_time text
            = (VRes.ok t, { s with _startdt := EDT.dt ⟨v.date, t, some s.conf.default_timezone⟩ })) ∧
        (s.allday = true →
          s._validate_start_time text
            = (VRes.ok t, { s with _startdt := EDT.dt ⟨v.date, t, some s.conf.default_timezone⟩ }))) ∧
      (∀ v, s._enddt = EDT.dt v →
        (s.allday = false → ∀ z, v.tz = some z →
          s._validate_end_time text
            = (VRes.ok t, { s with _enddt := EDT.dt ⟨v.date, t, some z⟩ })) ∧
        (s.allday = false → v.tz = none →
          s._validate_end_time text
            = (VRes.ok t, { s with _enddt := EDT.dt ⟨v.date, t, some s.conf.default_timezone⟩ })) ∧
        (s.allday = true →
          s._validate_end_time text
            = (VRes.ok t, { s with _enddt := EDT.dt ⟨v.date, t, some s.conf.default_timezone⟩ })))) ∧
    (∀ d, s.conf.strptime_date text = some d →
      (∀ x, s._startdt = EDT.d x →
        s._validate_start_date text
          = (VRes.ok d, { s with _startdt := EDT.dt ⟨d, ⟨0⟩, some s.conf.default_timezone⟩ })) ∧
      (∀ x, s._enddt = EDT.d x →
        s._validate_end_date text
          = (VRes.ok d, { s with _enddt := EDT.dt ⟨d, ⟨0⟩, some s.conf.default_timezone⟩ })) ∧
      (∀ v, s._startdt = EDT.dt v →
        (s.allday = false → ∀ z, v.tz = some z →
          s._validate_start_date text
            = (VRes.ok d, { s with _startdt := EDT.dt ⟨d, v.time, some z⟩ })) ∧
        (s.allday = false → v.tz = none →
          s._validate_start_date text
            = (VRes.ok d, { s with _startdt := EDT.dt ⟨d, v.time, some s.conf.default_timezone⟩ })) ∧
        (s.allday = true →
          s._validate_start_date text
            = (VRes.ok d, { s with _startdt := EDT.dt ⟨d, v.time, some s.conf.default_timezone⟩ }))) ∧
      (∀ v, s._enddt = EDT.dt v →
        (s.allday = false → ∀ z, v.tz = some z →
          s._validate_end_date text
            = (VRes.ok d, { s with _enddt := EDT.dt ⟨d, v.time, some z⟩ })) ∧
        (s.allday = false → v.tz = none →
          s._validate_end_date text
            = (VRes.ok d, { s with _enddt := EDT.dt ⟨d, v.time, some s.conf.default_timezone⟩ })) ∧
        (s.allday = true →
          s._validate_end_date text
            = (VRes.ok d, { s with _enddt := EDT.dt ⟨d, v.time, some s.conf.default_timezone⟩ })))) := by
  refine ⟨?_, ?_, ?_, ?_, ?_⟩
  · intro hp
    exact ⟨by simp [StartEndEditor._validate_start_time, hp],
           by simp [StartEndEditor._validate_end_time, hp]⟩
  · intro hp
    exact ⟨by simp [StartEndEditor._validate_start_date, hp],
           by simp [StartEndEditor._validate_end_date, hp]⟩
  · intro t hp
    constructor
    · intro x hv
      simp [StartEndEditor._validate_start_time, hp, hv]
    · intro x hv
      simp [StartEndEditor._validate_end_time, hp, hv]
  · intro t hp
    constructor
    · intro v hv
      refine ⟨?_, ?_, ?_⟩
      · intro hall z hz
        simp [StartEndEditor._validate_start_time, hp, hv,
          StartEndEditor.localize_start, StartEndEditor.startdt, hall, EDT.tzinfo, hz]
      · intro hall hz
        simp [StartEndEditor._validate_start_time, hp, hv,
          StartEndEditor.localize_start, StartEndEditor.startdt, hall, EDT.tzinfo, hz]
      · intro hall
        simp [StartEndEditor._validate_start_time, hp, hv,
          StartEndEditor.localize_start, StartEndEditor.startdt, hall, EDT.tzinfo]
    · intro v hv
      refine ⟨?_, ?_, ?_⟩
      · intro hall z hz
        simp [StartEndEditor._validate_end_time, hp, hv,
          StartEndEditor.localize_end, StartEndEditor.enddt, hall, EDT.tzinfo, hz]
      · intro hall hz
        simp [StartEndEditor._validate_end_time, hp, hv,
          StartEndEditor.localize_end, StartEndEditor.enddt, hall, EDT.tzinfo, hz]
      · intro hall
        simp [StartEndEditor._validate_end_time, hp, hv,
          StartEndEditor.localize_end, StartEndEditor.enddt, hall, EDT.tzinfo]
  · intro d hp
    refine ⟨?_, ?_, ?_, ?_⟩
    · intro x hv
      cases hall : s.allday <;>
        simp [StartEndEditor._validate_start_date, hp, hv, hall,
          StartEndEditor.localize_start, StartEndEditor.startdt, EDT.tzinfo,
          StartEndEditor._start_time]
    · intro x hv
      cases hall : s.allday <;>
        simp [StartEndEditor._validate_end_date, hp, hv, hall,
          StartEndEditor.localize_end, StartEndEditor.enddt, EDT.tzinfo,
          StartEndEditor._end_time]
    · intro v hv
      refine ⟨?_, ?_, ?_⟩
      · intro hall z hz
        simp [StartEndEditor._validate_start_date, hp, hv, hall,
          StartEndEditor.localize_start, StartEndEditor.startdt, EDT.tzinfo, hz,
          StartEndEditor._start_time]
      · intro hall hz
        simp [StartEndEditor._validate_start_date, hp, hv, hall,
          StartEndEditor.localize_start, StartEndEditor.startdt, EDT.tzinfo, hz,
          StartEndEditor._start_time]
      · intro hall
        simp [StartEndEditor._validate_start_date, hp, hv, hall,
          StartEndEditor.localize_start, StartEndEditor.startdt, EDT.tzinfo,
          StartEndEditor._start_time]
    · intro v hv
      refine ⟨?_, ?_, ?_⟩
      · intro hall z hz
        simp [StartEndEditor._validate_end_date, hp, hv, hall,
          StartEndEditor.localize_end, StartEndEditor.enddt, EDT.tzinfo, hz,
          StartEndEditor._end_time]
      · intro hall hz
        simp [StartEndEditor._validate_end_date, hp, hv, hall,
          StartEndEditor.localize_end, StartEndEditor.enddt, EDT.tzinfo, hz,
          StartEndEditor._end_time]
      · intro hall
        simp [StartEndEditor._validate_end_date, hp, hv, hall,
          StartEndEditor.localize_end, StartEndEditor.enddt, EDT.tzinfo,
          StartEndEditor._end_time]

/-- C8 witness: the corrected contract evaluated on concrete editors — an
unparseable text fails and leaves the state intact; a parsed time on the
aware timed editor keeps its date and timezone; a parsed time on the
naive editor produced by the all-day-to-timed toggle attaches the default
timezone; a parsed date on the all-day editor turns the stored plain date
into an aware midnight datetime. -/
theorem field_setter_contract_witness :
    sedTimed._validate_start_time "nonsense" = (VRes.failed, sedTimed) ∧
    sedTimed._validate_start_time "10:00"
      = (VRes.ok ⟨600⟩,
         { sedTimed with _startdt := EDT.dt ⟨dJun1, ⟨600⟩, some ⟨60⟩⟩ }) ∧
    (sedAllday.toggle false)._validate_start_time "09:00"
      = (VRes.ok ⟨540⟩,
         { sedAllday.toggle false with _startdt := EDT.dt ⟨dJun1, ⟨540⟩, some ⟨0⟩⟩ }) ∧
    sedAllday._validate_start_date "2024-06-02"
      = (VRes.ok dJun2,
         { sedAllday with _startdt := EDT.dt ⟨dJun2, ⟨0⟩, some ⟨0⟩⟩ }) := by
  refine ⟨((field_setter_contract sedTimed "nonsense").1 (by decide)).1, ?_, ?_, ?_⟩
  · exact (((field_setter_contract sedTimed "10:00").2.2.2.1 ⟨600⟩ (by decide)).1
      ⟨dJun1, ⟨540⟩, some ⟨60⟩⟩ rfl).1 rfl ⟨60⟩ rfl
  · exact (((field_setter_contract (sedAllday.toggle false) "09:00").2.2.2.1 ⟨540⟩
      (by decide)).1 ⟨dJun1, ⟨0⟩, none⟩ (by decide)).2.1 (by decide) (by decide)
  · exact ((field_setter_contract sedAllday "2024-06-02").2.2.2.2 dJun2 (by decide)).1
      dJun1 rfl

end Khal
